import Mathlib

/-!
Shallow embedding of the request-to-prediction pipeline of
`src/model_predictor.py` (class `ModelPredictor`): feature transform,
request capture (`save_request_data`), drift signal (`detect_drift`) and
the orchestration (`predict`), together with the per-problem registry
built by `__init__`.

External collaborators (pandas, mlflow model artifacts, yaml parsing,
the filesystem, the global random generator of Python) are modelled
explicitly: tables as lists of rows, the filesystem as a map from paths
to tables plus a set of existing directories, the generator as a natural
number threaded through `detect_drift`.
-/

deriving instance DecidableEq for Except

/-- A scalar cell value of a tabular request: a string, an integer, or
the NaN/None sentinel pandas uses to pad missing cells. -/
inductive Value where
  | str (s : String)
  | int (n : Int)
  | nan
  deriving DecidableEq

/-- A pandas DataFrame, reduced to its content: a header of column names
and a list of rows. -/
structure Table where
  columns : List String
  rows : List (List Value)
  deriving DecidableEq

/-- The pydantic request body `Data(id, rows, columns)` of
`model_predictor.py`. -/
structure Data where
  id : String
  rows : List (List Value)
  columns : List String
  deriving DecidableEq

/-- Errors of the pipeline, as the spec classifies them: request-shape
failures, unknown problem id (Python `KeyError` on the registries),
storage failure of the capture write (Python `IOError` from
`to_parquet`), and model runtime failure. -/
inductive PredictError where
  | validation
  | notFound
  | captureError
  | modelError
  deriving DecidableEq

/-- The width pandas infers for a nested-list payload: the maximum row
length (0 for no rows). -/
def rowsMaxWidth : List (List Value) → Nat
  | [] => 0
  | r :: rs => max r.length (rowsMaxWidth rs)

/-- `pd.DataFrame(data.rows, columns=data.columns)`: pandas pads ragged
rows with NaN up to the maximum row length, and raises (which the spec
files under ValidationError) only when that maximum disagrees with the
declared column count; an empty row list always builds an empty frame. -/
def buildTable (rows : List (List Value)) (columns : List String) :
    Except PredictError Table :=
  if rows.isEmpty then
    .ok { columns := columns, rows := rows }
  else if rowsMaxWidth rows = columns.length then
    .ok { columns := columns,
          rows := rows.map (fun r =>
            r ++ List.replicate (columns.length - r.length) Value.nan) }
  else
    .error .validation

/-- A fitted category index: column name to (raw value to integer code). -/
def CategoryIndex := List (String × List (Value × Int))

/-- The static configuration of one problem, the two fields `predict` reads. -/
structure ProbConfig where
  categorical_cols : List String
  captured_data_dir : String
  deriving DecidableEq

/-- The parsed per-problem model YAML, the four keys `__init__` reads. -/
structure ModelConf where
  phase_id : String
  prob_id : String
  model_name : String
  model_version : Nat
  deriving DecidableEq

/-- The loaded mlflow model artifact, an external capability: maps a
feature table to a list of prediction values, or fails at runtime. -/
def Model := Table → Except PredictError (List Value)

/-- Modelled from the spec: `RawDataProcessor1.apply_category_features`
(and the identically-named `RawDataProcessor2` method) live in
`raw_data_processor1.py` / `raw_data_processor2.py`, which are not part
of the sources; spec 4.1 (FeatureTransformer) defines the contract.
The value of each declared categorical column is replaced by its integer code
from the index, an unseen value gets the reserved fallback code -1,
other columns pass through; it fails with a ValidationError when a
declared categorical column is missing from the raw table or the
row/column shape is inconsistent. -/
def apply_category_features (raw_df : Table) (categorical_cols : List String)
    (category_index : CategoryIndex) : Except PredictError Table :=
  if raw_df.rows.all (fun r => r.length == raw_df.columns.length)
      && categorical_cols.all (fun c => raw_df.columns.contains c) then
    .ok { columns := raw_df.columns,
          rows := raw_df.rows.map (fun row =>
            (raw_df.columns.zip row).map (fun cv =>
              if categorical_cols.contains cv.1 then
                Value.int ((((category_index.lookup cv.1).getD []).lookup cv.2).getD (-1))
              else
                cv.2)) }
  else
    .error .validation

/-- Models `pandas.util.hash_pandas_object(feature_df).sum()`: an
external, deterministic 64-bit content hash of the table, summed over
rows. The exact mixing function is immaterial to every claim; what
matters is that it is a pure function of the table content. -/
def hashVal : Value → Nat
  | .int n => 2 * n.natAbs + (if n < 0 then 1 else 0)
  | .str s => s.foldl (fun a c => a * 65599 + c.toNat) 5381
  | .nan => 3

/-- Content hash of one row, reduced modulo 2 ^ 64 like the numpy
uint64 row hashes of `hash_pandas_object`. -/
def hashRow (r : List Value) : Nat :=
  r.foldl (fun a v => (a * 1000003 + hashVal v) % 2 ^ 64) 1469598103

/-- The summed table hash (`.sum()` over the per-row uint64 hashes,
wrapping modulo 2 ^ 64). -/
def hashTable (t : Table) : Nat :=
  t.rows.foldl (fun a r => (a + hashRow r) % 2 ^ 64) 0

/-- The durable storage under the capture directories: the set of
directories that exist, and the files written so far (path to content). -/
structure FS where
  dirs : List String
  files : List (String × Table)
  deriving DecidableEq

/-- Overwriting write of a table at a path (last writer wins). -/
def fsWrite (fs : FS) (path : String) (t : Table) : FS :=
  { fs with files := (path, t) :: fs.files.filter (fun pt => pt.1 != path) }

/-- Python `str.strip()`: drops leading and trailing whitespace. -/
def pyStrip (s : String) : String :=
  ⟨((s.data.dropWhile Char.isWhitespace).reverse.dropWhile Char.isWhitespace).reverse⟩

/-- `ModelPredictor.save_request_data(feature_df, captured_data_dir,
data_id)`: picks `data_id` itself as the file name when
`data_id.strip()` is truthy, else the summed table hash; writes
`{captured_data_dir}/{filename}.parquet` and returns that path.
`to_parquet` fails (Python `IOError`) when the directory does not
exist. -/
def save_request_data (feature_df : Table) (captured_data_dir : String)
    (data_id : String) (fs : FS) : Except PredictError (String × FS) :=
  let filename := if pyStrip data_id ≠ "" then data_id
                  else toString (hashTable feature_df)
  let output_file_path := captured_data_dir ++ "/" ++ filename ++ ".parquet"
  if fs.dirs.contains captured_data_dir then
    .ok (output_file_path, fsWrite fs output_file_path feature_df)
  else
    .error .captureError

/-- The Python global `random` generator state, abstracted: `choice([0, 1])`
consumes the state, yielding the drawn bit and the successor state. -/
def randomChoice01 (g : Nat) : Nat × Nat := (g % 2, g / 2)

/-- `ModelPredictor.detect_drift(feature_df)`: sleeps 20 ms (no semantic
effect here) and returns `random.choice([0, 1])`; the feature table
argument is never read, exactly as in the source. -/
def detect_drift (feature_df : Table) (g : Nat) : Nat × Nat :=
  randomChoice01 g

/-- The per-problem registries that `__init__` fills: `self.config`,
`self.model`, `self.category_index`, `self.prob_config`, keyed by
problem id. -/
structure ModelPredictor where
  config : List (String × ModelConf)
  model : List (String × Model)
  category_index : List (String × CategoryIndex)
  prob_config : List (String × ProbConfig)

/-- `ModelPredictor.__init__`: the loop body runs for `prob` in
`["prob-1"]` only, so each registry holds exactly the key "prob-1". The
external reads (yaml file, `create_prob_config`, `load_category_index`,
`mlflow.pyfunc.load_model`) are abstracted as the four parameters. -/
def ModelPredictor.init (conf : ModelConf) (pc : ProbConfig)
    (ci : CategoryIndex) (m : Model) : ModelPredictor :=
  { config := [("prob-1", conf)],
    model := [("prob-1", m)],
    category_index := [("prob-1", ci)],
    prob_config := [("prob-1", pc)] }

/-- The response dict `{"id": ..., "predictions": ..., "drift": ...}`
assembled at the end of `predict`. -/
structure PredictionResult where
  id : String
  predictions : List Value
  drift : Nat
  deriving DecidableEq

/-- The steps a request passes through, in the order the body of
`predict` executes them; used to state the temporal claims. -/
inductive Event where
  | transformed
  | captureAttempted
  | modelCalled
  | driftChecked
  | responded
  deriving DecidableEq

/-- The full single-pass step order of `predict`. -/
def canonicalTrace : List Event :=
  [.transformed, .captureAttempted, .modelCalled, .driftChecked, .responded]

/-- The mutable world a request touches: the shared registries (never
written after init), the capture storage, and the random generator. -/
structure SysState where
  predictor : ModelPredictor
  fs : FS
  rng : Nat

/-- `ModelPredictor.predict(data, prob)`, line by line:
build the DataFrame (shape errors surface here, before anything else);
look up `self.prob_config[prob]` and `self.category_index[prob]`
(a `KeyError` on an unconfigured problem id surfaces here, after the
DataFrame build but before any write); transform; capture via
`save_request_data` with no exception handler, so a storage failure
propagates and aborts the request; `self.model[prob].predict`; drift
check; assemble the response. Both branches of the `prob` dispatch call
an `apply_category_features` with the same arguments, so the dispatch
collapses in the embedding. Returns the result (or error), the
post-state, and the trace of steps reached. -/
def predict (s : SysState) (data : Data) (prob : String) :
    Except PredictError PredictionResult × SysState × List Event :=
  match buildTable data.rows data.columns with
  | .error e => (.error e, s, [])
  | .ok raw_df =>
    match s.predictor.prob_config.lookup prob with
    | none => (.error .notFound, s, [])
    | some pc =>
      match s.predictor.category_index.lookup prob with
      | none => (.error .notFound, s, [])
      | some ci =>
        match apply_category_features raw_df pc.categorical_cols ci with
        | .error e => (.error e, s, [])
        | .ok feature_df =>
          match save_request_data feature_df pc.captured_data_dir data.id s.fs with
          | .error e => (.error e, s, [.transformed, .captureAttempted])
          | .ok (_path, fs1) =>
            match s.predictor.model.lookup prob with
            | none => (.error .notFound, { s with fs := fs1 },
                       [.transformed, .captureAttempted])
            | some m =>
              match m feature_df with
              | .error _ => (.error .modelError, { s with fs := fs1 },
                             [.transformed, .captureAttempted, .modelCalled])
              | .ok preds =>
                let dr := detect_drift feature_df s.rng
                (.ok { id := data.id, predictions := preds, drift := dr.1 },
                 { s with fs := fs1, rng := dr.2 },
                 canonicalTrace)

/-- A reference deployment used by the concrete checks below: one
categorical column "cat" encoded by a one-entry index, capture
directory "d", and a model echoing the last cell of every row. -/
def confW : ModelConf := ⟨"phase-1", "prob-1", "model-1", 1⟩

/-- Problem configuration of the reference deployment. -/
def pcW : ProbConfig := ⟨["cat"], "d"⟩

/-- Category index of the reference deployment. -/
def ciW : CategoryIndex := [("cat", [(Value.str "A", 1)])]

/-- Model of the reference deployment: echoes the last cell of each row. -/
def mW : Model := fun t => .ok (t.rows.map (fun r => r.getLastD (Value.int 0)))

/-- Storage with the capture directory "d" present and no files. -/
def fsW : FS := ⟨["d"], []⟩

/-- Reference system state: capture directory present, generator at 0. -/
def sW : SysState := ⟨ModelPredictor.init confW pcW ciW mW, fsW, 0⟩

/-- Reference system state whose capture directory does not exist. -/
def sNoDir : SysState := ⟨ModelPredictor.init confW pcW ciW mW, ⟨[], []⟩, 0⟩

/-- A well-formed request: one row, columns "cat" and "num". -/
def dW : Data := ⟨"r1", [[Value.str "A", Value.int 5]], ["cat", "num"]⟩

/-- A malformed request: a row of width 2 under a single declared column. -/
def dBad : Data := ⟨"x", [[Value.int 1, Value.int 2]], ["a"]⟩

/-- A well-shaped request missing the declared categorical column "cat". -/
def dMissing : Data := ⟨"r3", [[Value.int 7]], ["num"]⟩

/-- A small feature table used by the capture-naming checks. -/
def tW : Table := ⟨["a"], [[Value.int 1]]⟩

/-- A ragged request: two rows of widths 2 and 1 under two declared
columns; pandas pads the short row with NaN and processes it. -/
def dRagged : Data :=
  ⟨"r4", [[Value.str "A", Value.int 5], [Value.str "A"]], ["cat", "num"]⟩

/-- Every member row is at most as long as the inferred width. -/
lemma length_le_rowsMaxWidth {r : List Value} {rows : List (List Value)}
    (h : r ∈ rows) : r.length ≤ rowsMaxWidth rows := by
  induction rows with
  | nil => cases h
  | cons a as ih =>
    rcases List.mem_cons.mp h with h | h
    · subst h; exact Nat.le_max_left r.length (rowsMaxWidth as)
    · exact le_trans (ih h) (Nat.le_max_right a.length (rowsMaxWidth as))

/-- When every row of a nonempty payload has the same length, that
length is the inferred width. -/
lemma rowsMaxWidth_of_uniform {rows : List (List Value)} {n : Nat}
    (hne : rows ≠ []) (h : ∀ r ∈ rows, r.length = n) : rowsMaxWidth rows = n := by
  induction rows with
  | nil => exact absurd rfl hne
  | cons a as ih =>
    cases as with
    | nil => simp [rowsMaxWidth, h a (List.mem_cons_self a [])]
    | cons b bs =>
      have h1 : a.length = n := h a (List.mem_cons_self a (b :: bs))
      have h2 : rowsMaxWidth (b :: bs) = n :=
        ih (by simp) (fun r hr => h r (List.mem_cons_of_mem a hr))
      have hstep : rowsMaxWidth (a :: b :: bs) = max a.length (rowsMaxWidth (b :: bs)) := rfl
      rw [hstep, h1, h2, Nat.max_self]

/-- Padding rows that already have the target length changes nothing. -/
lemma pad_map_id (n : Nat) :
    ∀ (l : List (List Value)), (∀ r ∈ l, r.length = n) →
      l.map (fun r => r ++ List.replicate (n - r.length) Value.nan) = l := by
  intro l
  induction l with
  | nil => intro hl; rfl
  | cons x xs ih =>
    intro hl
    have hx : x.length = n := hl x (List.mem_cons_self x xs)
    have hxs := ih (fun r hr => hl r (List.mem_cons_of_mem x hr))
    simp only [List.map_cons, hxs]
    rw [hx, Nat.sub_self]
    simp

/-- When every row matches the declared column count, the DataFrame
build succeeds and returns exactly the declared header and rows. -/
lemma buildTable_pos {rows : List (List Value)} {cols : List String}
    (h : ∀ r ∈ rows, r.length = cols.length) :
    buildTable rows cols = .ok ⟨cols, rows⟩ := by
  cases rows with
  | nil => rfl
  | cons a as =>
    have hw : rowsMaxWidth (a :: as) = cols.length :=
      rowsMaxWidth_of_uniform (by simp) h
    have hmap := pad_map_id cols.length (a :: as) h
    simp [buildTable, hw, hmap]

/-- A nonempty payload whose inferred width disagrees with the declared
column count makes the DataFrame build fail with a validation error. -/
lemma buildTable_neg {rows : List (List Value)} {cols : List String}
    (hne : rows ≠ []) (h : rowsMaxWidth rows ≠ cols.length) :
    buildTable rows cols = .error .validation := by
  have h1 : ¬ (rows.isEmpty = true) := by simpa using hne
  unfold buildTable
  rw [if_neg h1, if_neg h]

/-- A successful DataFrame build keeps the declared header and the row
count (padding does not add or drop rows). -/
lemma buildTable_ok {rows : List (List Value)} {cols : List String} {t : Table}
    (h : buildTable rows cols = .ok t) :
    t.columns = cols ∧ t.rows.length = rows.length := by
  unfold buildTable at h
  split at h
  · cases h; exact ⟨rfl, rfl⟩
  split at h
  · cases h; exact ⟨rfl, by simp⟩
  · cases h

/-- A built table is rectangular: every row has the declared width. -/
lemma buildTable_rect {rows : List (List Value)} {cols : List String} {t : Table}
    (h : buildTable rows cols = .ok t) :
    ∀ r ∈ t.rows, r.length = t.columns.length := by
  unfold buildTable at h
  split at h
  · rename_i he
    have hnil : rows = [] := by simpa using he
    cases h
    subst hnil
    intro r hr
    cases hr
  split at h
  · rename_i hw
    cases h
    intro r hr
    simp only [List.mem_map] at hr
    obtain ⟨x, hx, rfl⟩ := hr
    have hle : x.length ≤ rowsMaxWidth rows := length_le_rowsMaxWidth hx
    rw [hw] at hle
    simp only [List.length_append, List.length_replicate]
    omega
  · cases h

/-- A failed DataFrame build always raises the validation error. -/
lemma buildTable_error {rows : List (List Value)} {cols : List String}
    {e : PredictError} (h : buildTable rows cols = .error e) : e = .validation := by
  unfold buildTable at h
  split at h
  · cases h
  split at h
  · cases h
  · cases h; rfl

/-- A successful transform keeps the header and the row count. -/
lemma apply_category_features_ok {raw : Table} {ccols : List String}
    {ci : CategoryIndex} {ft : Table}
    (h : apply_category_features raw ccols ci = .ok ft) :
    ft.columns = raw.columns ∧ ft.rows.length = raw.rows.length := by
  unfold apply_category_features at h
  split at h
  · cases h; exact ⟨rfl, by simp⟩
  · cases h

/-- With a consistent shape and all declared categorical columns present,
the transform succeeds and encodes exactly as defined. -/
lemma acf_ok_of (raw : Table) (ccols : List String) (ci : CategoryIndex)
    (h1 : ∀ r ∈ raw.rows, r.length = raw.columns.length)
    (h2 : ∀ c ∈ ccols, c ∈ raw.columns) :
    apply_category_features raw ccols ci =
      .ok { columns := raw.columns,
            rows := raw.rows.map (fun row =>
              (raw.columns.zip row).map (fun cv =>
                if ccols.contains cv.1 then
                  Value.int ((((ci.lookup cv.1).getD []).lookup cv.2).getD (-1))
                else cv.2)) } := by
  have hb1 : (raw.rows.all fun r => r.length == raw.columns.length) = true := by
    simpa using h1
  have hb2 : (ccols.all fun c => raw.columns.contains c) = true := by
    simpa using h2
  unfold apply_category_features
  rw [hb1, hb2]
  rfl

/-- A declared categorical column absent from the raw table makes the
transform fail with a validation error. -/
lemma acf_validation_of {raw : Table} {ccols : List String} {ci : CategoryIndex}
    (c : String) (hc : c ∈ ccols) (hnc : c ∉ raw.columns) :
    apply_category_features raw ccols ci = .error .validation := by
  have hb2 : (ccols.all fun x => raw.columns.contains x) = false := by
    cases hx : (ccols.all fun x => raw.columns.contains x) with
    | true => exact absurd ((by simpa using hx : ∀ x ∈ ccols, x ∈ raw.columns) c hc) hnc
    | false => rfl
  unfold apply_category_features
  rw [hb2, Bool.and_false]
  rfl

/-- A missing capture directory makes the capture write fail. -/
lemma save_request_data_captureError {t : Table} {dir id : String} {fs : FS}
    (hdir : dir ∉ fs.dirs) :
    save_request_data t dir id fs = .error .captureError := by
  have hb : fs.dirs.contains dir = false := by
    cases hx : fs.dirs.contains dir with
    | true => exact absurd (by simpa using hx) hdir
    | false => rfl
  simp only [save_request_data]
  rw [hb]
  rfl

/-- With the capture directory present, the capture write succeeds at
the path determined by the naming policy. -/
lemma save_request_data_ok {t : Table} {dir id : String} {fs : FS}
    (hdir : dir ∈ fs.dirs) :
    save_request_data t dir id fs =
      .ok (dir ++ "/" ++ (if pyStrip id ≠ "" then id else toString (hashTable t)) ++ ".parquet",
           fsWrite fs (dir ++ "/" ++ (if pyStrip id ≠ "" then id else toString (hashTable t)) ++ ".parquet") t) := by
  have hb : fs.dirs.contains dir = true := by simpa using hdir
  simp only [save_request_data]
  rw [hb]
  rfl

/-- C9: predict never mutates the shared per-problem state: the
predictor component of the system state — the config, model,
category-index and problem-config registries loaded at
initialization — is identical before and after every call. -/
theorem predict_preserves_registry (s : SysState) (data : Data) (prob : String) :
    (predict s data prob).2.1.predictor = s.predictor := by
  unfold predict
  repeat' split
  all_goals rfl

/-- C10: the drift flag carries no information about the request:
detect_drift never reads its feature-table argument, so at the same
generator state it returns the same answer for any two tables, and the
drawn value is always 0 or 1. -/
theorem detect_drift_ignores_features (t1 t2 : Table) (g : Nat) :
    detect_drift t1 g = detect_drift t2 g ∧
      ((detect_drift t1 g).1 = 0 ∨ (detect_drift t1 g).1 = 1) := by
  refine ⟨rfl, ?_⟩
  simp only [detect_drift, randomChoice01]
  omega

/-- C8: every request is a single pass through the fixed step order
transform, capture, model predict, drift check, respond: the step trace
of every call extends to the canonical order (so no step repeats, and no
step runs before its predecessors), and a call that returns a result ran
the full sequence. -/
theorem single_pass_step_order (s : SysState) (data : Data) (prob : String) :
    (∃ rest, (predict s data prob).2.2 ++ rest = canonicalTrace) ∧
      (∀ r, (predict s data prob).1 = .ok r →
        (predict s data prob).2.2 = canonicalTrace) := by
  unfold predict
  repeat' split
  all_goals refine ⟨⟨_, rfl⟩, ?_⟩
  all_goals intro r h
  all_goals first | rfl | simp at h

/-- C2 (amended): for every well-shaped request, an unconfigured problem
id fails with NotFoundError — the KeyError of the registry lookup —
before any capture write: the state is unchanged and the trace is empty.
For a malformed table shape the validation error of the DataFrame build
fires first instead, since the table is built before the lookup. -/
theorem unknown_problem_id_not_found
    (conf : ModelConf) (pc : ProbConfig) (ci : CategoryIndex) (m : Model)
    (fs : FS) (rng : Nat) (data : Data) (prob : String)
    (hprob : prob ≠ "prob-1")
    (hshape : ∀ r ∈ data.rows, r.length = data.columns.length) :
    predict ⟨ModelPredictor.init conf pc ci m, fs, rng⟩ data prob =
      (.error .notFound, ⟨ModelPredictor.init conf pc ci m, fs, rng⟩, []) := by
  have hbeq : (prob == "prob-1") = false := beq_eq_false_iff_ne.mpr hprob
  unfold predict
  split
  · rename_i e hb
    rw [buildTable_pos hshape] at hb
    cases hb
  rename_i raw_df hb
  split
  · rfl
  · rename_i pc2 hpc
    simp [ModelPredictor.init, List.lookup, hbeq] at hpc

/-- C2 counterexample to the claim as stated: a request whose single row
has width 2 under one declared column, sent to the unconfigured
problem id "prob-2", fails with the shape validation error, not with
NotFoundError: the DataFrame is built before the problem lookup. -/
theorem unknown_problem_shape_error_counterexample :
    (predict sW dBad "prob-2").1 = .error .validation ∧
      (predict sW dBad "prob-2").1 ≠ .error .notFound := by decide

/-- C2 witness: the amended theorem at the reference deployment and a
well-shaped request for "prob-2". -/
theorem unknown_problem_id_not_found_witness :
    predict sW dW "prob-2" = (.error .notFound, sW, []) :=
  unknown_problem_id_not_found confW pcW ciW mW fsW 0 dW "prob-2"
    (by decide) (by decide)

/-- C6 (amended): a request missing a declared categorical column, or
whose rows are nonempty with maximum row width different from the
declared column count — the shape error pandas actually raises — fails
with ValidationError and aborts before any capture write and before any
model call: the state is unchanged and the step trace is empty. Ragged
rows whose maximum width matches the declared column count are instead
padded with NaN and processed to completion. -/
theorem missing_categorical_validation_abort
    (conf : ModelConf) (pc : ProbConfig) (ci : CategoryIndex) (m : Model)
    (fs : FS) (rng : Nat) (data : Data)
    (h : (data.rows ≠ [] ∧ rowsMaxWidth data.rows ≠ data.columns.length) ∨
         (∃ c ∈ pc.categorical_cols, c ∉ data.columns)) :
    predict ⟨ModelPredictor.init conf pc ci m, fs, rng⟩ data "prob-1" =
      (.error .validation, ⟨ModelPredictor.init conf pc ci m, fs, rng⟩, []) := by
  rcases h with ⟨hne, hw⟩ | ⟨c, hc, hnc⟩
  · unfold predict
    split
    · rename_i e hb
      rw [buildTable_neg hne hw] at hb
      injection hb with hb
      subst hb
      rfl
    · rename_i raw_df hb
      rw [buildTable_neg hne hw] at hb
      cases hb
  · unfold predict
    split
    · rename_i e hb
      rw [buildTable_error hb]
    rename_i raw_df hb
    split
    · rename_i hpc
      simp [ModelPredictor.init, List.lookup] at hpc
    rename_i pc2 hpc
    simp [ModelPredictor.init, List.lookup] at hpc
    subst hpc
    split
    · rename_i hci
      simp [ModelPredictor.init, List.lookup] at hci
    rename_i ci2 hci
    simp [ModelPredictor.init, List.lookup] at hci
    subst hci
    have hcolseq := (buildTable_ok hb).1
    split
    · rename_i e hft
      rw [acf_validation_of c hc (by rw [hcolseq]; exact hnc)] at hft
      injection hft with hft
      subst hft
      rfl
    · rename_i ft hft
      rw [acf_validation_of c hc (by rw [hcolseq]; exact hnc)] at hft
      cases hft

/-- C6 counterexample to the claim as stated: the ragged request dRagged
has a second row of width 1 under two declared columns — an inconsistent
row/column shape in the sense of the claim — yet pandas pads it with NaN
and the program processes it to completion: predict returns a result and
a capture file is written at d/r4.parquet. -/
theorem ragged_rows_processed_counterexample :
    (¬ ∀ r ∈ dRagged.rows, r.length = dRagged.columns.length) ∧
      (predict sW dRagged "prob-1").1 =
        .ok ⟨"r4", [Value.int 5, Value.nan], 0⟩ ∧
      ("d/r4.parquet",
        Table.mk ["cat", "num"]
          [[Value.int 1, Value.int 5], [Value.int 1, Value.nan]])
        ∈ (predict sW dRagged "prob-1").2.1.fs.files := by decide

/-- C6 witness: a request lacking the declared categorical column "cat"
is rejected with ValidationError, state unchanged, empty trace. -/
theorem missing_categorical_validation_abort_witness :
    predict sW dMissing "prob-1" = (.error .validation, sW, []) :=
  missing_categorical_validation_abort confW pcW ciW mW fsW 0 dMissing
    (Or.inr (by decide))

/-- C1 (amended): a failure of the capture write is not handled by
predict: when the capture directory does not exist, the storage error
propagates and aborts the request — the model is never invoked, no
PredictionResult is returned, and the filesystem is unchanged. -/
theorem capture_failure_aborts_prediction
    (conf : ModelConf) (pc : ProbConfig) (ci : CategoryIndex) (m : Model)
    (fs : FS) (rng : Nat) (data : Data)
    (hshape : ∀ r ∈ data.rows, r.length = data.columns.length)
    (hcols : ∀ c ∈ pc.categorical_cols, c ∈ data.columns)
    (hdir : pc.captured_data_dir ∉ fs.dirs) :
    predict ⟨ModelPredictor.init conf pc ci m, fs, rng⟩ data "prob-1" =
      (.error .captureError, ⟨ModelPredictor.init conf pc ci m, fs, rng⟩,
        [.transformed, .captureAttempted]) := by
  unfold predict
  split
  · rename_i e hb
    rw [buildTable_pos hshape] at hb
    cases hb
  rename_i raw_df hb
  rw [buildTable_pos hshape] at hb
  injection hb with hb
  subst hb
  split
  · rename_i hpc
    simp [ModelPredictor.init, List.lookup] at hpc
  rename_i pc2 hpc
  simp [ModelPredictor.init, List.lookup] at hpc
  subst hpc
  split
  · rename_i hci
    simp [ModelPredictor.init, List.lookup] at hci
  rename_i ci2 hci
  simp [ModelPredictor.init, List.lookup] at hci
  subst hci
  split
  · rename_i e hft
    rw [acf_ok_of _ _ _ hshape hcols] at hft
    cases hft
  rename_i ft hft
  split
  · rename_i e hsv
    rw [save_request_data_captureError hdir] at hsv
    injection hsv with hsv
    subst hsv
    rfl
  · rename_i pr hsv
    rw [save_request_data_captureError hdir] at hsv
    cases hsv

/-- C1 counterexample to the claim as stated: with the capture directory
absent, the capture write fails and predict does not return a
PredictionResult — it aborts with CaptureError and the model step is
never reached. -/
theorem capture_failure_not_swallowed_counterexample :
    (predict sNoDir dW "prob-1").1 = .error .captureError ∧
      Event.modelCalled ∉ (predict sNoDir dW "prob-1").2.2 := by decide

/-- C1 witness: the amended theorem at the reference deployment with the
capture directory removed. -/
theorem capture_failure_aborts_prediction_witness :
    predict sNoDir dW "prob-1" =
      (.error .captureError, sNoDir, [.transformed, .captureAttempted]) :=
  capture_failure_aborts_prediction confW pcW ciW mW ⟨[], []⟩ 0 dW
    (by decide) (by decide) (by decide)

/-- C3 (amended): for every request id that is non-empty after stripping
whitespace, save_request_data uses the id verbatim — untrimmed — as the
storage key: whatever the feature-table content, the file is written at
captured_data_dir/id.parquet and that path is returned. -/
theorem nonempty_id_verbatim_key (t : Table) (dir id : String) (fs : FS)
    (hid : pyStrip id ≠ "")
    (hdir : dir ∈ fs.dirs) :
    save_request_data t dir id fs =
      .ok (dir ++ "/" ++ id ++ ".parquet",
           fsWrite fs (dir ++ "/" ++ id ++ ".parquet") t) := by
  rw [save_request_data_ok hdir]
  simp [hid]

/-- C3 counterexample to the claim as stated: the id " r1 " is non-empty
after stripping, but the storage key is the raw id with its whitespace,
not the trimmed one: the file goes to "d/ r1 .parquet", which differs
from the trimmed path. -/
theorem nonempty_id_not_trimmed_counterexample :
    (save_request_data tW "d" " r1 " fsW).map Prod.fst = .ok "d/ r1 .parquet" ∧
      "d/ r1 .parquet" ≠ "d" ++ "/" ++ pyStrip " r1 " ++ ".parquet" := by decide

/-- C3 witness: the amended theorem at a concrete table, directory and
whitespace-free id. -/
theorem nonempty_id_verbatim_key_witness :
    save_request_data tW "d" "r2" fsW =
      .ok ("d" ++ "/" ++ "r2" ++ ".parquet",
           fsWrite fsW ("d" ++ "/" ++ "r2" ++ ".parquet") tW) :=
  nonempty_id_verbatim_key tW "d" "r2" fsW (by decide) (by decide)

/-- C7: for every request id that is empty (or whitespace-only after
stripping), the storage key is the deterministic content hash of the
feature table: the written path is captured_data_dir/hash.parquet, and
any two capture calls with identical table content — whatever their
empty-ish ids or prior storage contents — produce the same path. -/
theorem empty_id_content_fingerprint (t : Table) (dir id : String) (fs : FS)
    (hid : pyStrip id = "")
    (hdir : dir ∈ fs.dirs) :
    (save_request_data t dir id fs).map Prod.fst =
        .ok (dir ++ "/" ++ toString (hashTable t) ++ ".parquet") ∧
      ∀ (id2 : String) (fs2 : FS), pyStrip id2 = "" → dir ∈ fs2.dirs →
        (save_request_data t dir id2 fs2).map Prod.fst =
          (save_request_data t dir id fs).map Prod.fst := by
  constructor
  · rw [save_request_data_ok hdir]
    simp [hid, Except.map]
  · intro id2 fs2 h2 hd2
    rw [save_request_data_ok hdir, save_request_data_ok hd2]
    simp [hid, h2, Except.map]

/-- C7 witness: capturing the same table under the empty id and under a
whitespace-only id, against different storage states, writes to the same
content-addressed path. -/
theorem empty_id_content_fingerprint_witness :
    (save_request_data tW "d" "  " ⟨["d"], [("z", Table.mk [] [])]⟩).map Prod.fst =
      (save_request_data tW "d" "" fsW).map Prod.fst :=
  (empty_id_content_fingerprint tW "d" "" fsW (by decide) (by decide)).2
    "  " ⟨["d"], [("z", Table.mk [] [])]⟩ (by decide) (by decide)

/-- C5: assuming the model capability returns one prediction per input
row in order, every successful predict call returns a result whose id
echoes the request id, whose predictions are exactly the model output on
the transformed table — passed through unmodified, hence in order — and
whose prediction count equals the request row count. -/
theorem predictions_length_and_id
    (conf : ModelConf) (pc : ProbConfig) (ci : CategoryIndex) (m : Model)
    (fs : FS) (rng : Nat) (data : Data) (res : PredictionResult)
    (hm : ∀ t ps, m t = .ok ps → ps.length = t.rows.length)
    (h : (predict ⟨ModelPredictor.init conf pc ci m, fs, rng⟩ data "prob-1").1
          = .ok res) :
    res.id = data.id ∧ res.predictions.length = data.rows.length ∧
      ∃ raw ft, buildTable data.rows data.columns = .ok raw ∧
        apply_category_features raw pc.categorical_cols ci = .ok ft ∧
        m ft = .ok res.predictions := by
  unfold predict at h
  split at h
  · simp at h
  rename_i raw_df hb
  split at h
  · simp at h
  rename_i pc2 hpc
  split at h
  · simp at h
  rename_i ci2 hci
  split at h
  · simp at h
  rename_i feature_df hf
  split at h
  · simp at h
  rename_i p fs1 hsave
  split at h
  · simp at h
  rename_i m2 hm2
  split at h
  · simp at h
  rename_i preds hpred
  simp [ModelPredictor.init, List.lookup] at hpc hci hm2
  subst hpc
  subst hci
  subst hm2
  simp at h
  subst h
  refine ⟨rfl, ?_, raw_df, feature_df, hb, hf, hpred⟩
  show preds.length = data.rows.length
  rw [hm feature_df preds hpred, (apply_category_features_ok hf).2,
      (buildTable_ok hb).2]

/-- C5 witness: the reference request with one row yields a result with
one prediction, echoing the request id. -/
theorem predictions_length_and_id_witness :
    (PredictionResult.mk "r1" [Value.int 5] 0).id = dW.id ∧
      (PredictionResult.mk "r1" [Value.int 5] 0).predictions.length = dW.rows.length ∧
      ∃ raw ft, buildTable dW.rows dW.columns = .ok raw ∧
        apply_category_features raw pcW.categorical_cols ciW = .ok ft ∧
        mW ft = .ok (PredictionResult.mk "r1" [Value.int 5] 0).predictions :=
  predictions_length_and_id confW pcW ciW mW fsW 0 dW ⟨"r1", [Value.int 5], 0⟩
    (fun t ps hps => by injection hps with h2; rw [← h2]; simp) (by decide)

/-- C8 witness: the reference request reaches every step of the
canonical order. -/
theorem single_pass_step_order_witness :
    (predict sW dW "prob-1").2.2 = canonicalTrace :=
  (single_pass_step_order sW dW "prob-1").2 ⟨"r1", [Value.int 5], 0⟩ (by decide)
